import Mathlib

/-!
Verification development for the voice-agent-tester repository.

The repository has two entry points with duplicated scenario-engine logic:
* `src/main.py` — single-scenario script (`execute_step`, `inject_javascript_files`,
  `run_scenario`);
* `src/voice_agent_tester/__main.py` — multi-scenario package entry point
  (`run_scenario`, `run`).

We embed both shallowly.  Awaited browser operations are modelled by an
environment that says which operation raises; executing a piece of code
yields a trace of observable events (prints, browser commands, sleeps)
together with an optional escaping exception (`none` = normal return).
Python exceptions are modelled by their message string.  Durations are in
milliseconds.
-/

namespace VoiceAgentTester

/-- Observable events of one run: console prints, browser-protocol commands,
and timed suspensions (milliseconds). -/
inductive Event where
  | log (msg : String)
  | logElapsed
  | launch
  | newPage
  | goto (url : String)
  | inject (path : String)
  | evaluate (script : String)
  | click (selector : String)
  | waitForSelector (selector : String)
  | sleep (ms : Nat)
  | close
  deriving DecidableEq, Repr

/-- Outcome of running a code block: the trace of events it produced and the
exception escaping it, if any (`none` = normal completion). -/
abbrev Outcome := List Event × Option String

/-- Python `;` between two blocks: run the second only when the first returned
normally; an exception short-circuits. -/
def seqE (a b : Outcome) : Outcome :=
  match a with
  | (tr, none) => (tr ++ b.1, b.2)
  | (tr, some e) => (tr, some e)

/-- A step dictionary of `src/main.py`: `step.get(key)` returns `None` when the
key is absent, so each field is an `Option String`. -/
structure Step where
  action : Option String
  element : Option String
  text : Option String
  deriving DecidableEq, Repr

/-- Python truthiness of `step.get(k)` for a string field: `None` and the empty
string are falsy. -/
def truthy : Option String → Bool
  | none => false
  | some s => s ≠ ""

/-- Environment for `src/main.py`: which awaited operation raises, and the
glob result for the javascript folder. -/
structure Env where
  launchFails : Bool
  newPageFails : Bool
  gotoFails : Bool
  jsFiles : List String
  addScriptTagFails : String → Bool
  clickFails : String → Bool
  waitForSelectorFails : String → Bool
  evaluateFails : String → Bool

/-- The fixed call-site text preceding the interpolated text in the `speak`
handler of `src/main.py`. -/
def speakCallPre : String :=
  "speechSynthesis.speak(new SpeechSynthesisUtterance(\""

/-- The script string built by the `speak` handler of `src/main.py`:
the f-string `speechSynthesis.speak(new SpeechSynthesisUtterance("\x7btext\x7d"))` —
the text is interpolated verbatim, with no escaping. -/
def speakScript (t : String) : String :=
  speakCallPre ++ t ++ "\"))"

/-- Python `str()` of the action field as printed by the unknown-action
branch: `None` for a missing key. -/
def pyShowOpt : Option String → String
  | none => "None"
  | some a => a

/-- The body of `execute_step` of `src/main.py` between the two timestamps:
the `if action == ... / elif ... / else` chain.  Only the `click` handler
wraps its browser calls in `try/except`; `wait` and `speak` let exceptions
escape. -/
def execute_step_core (env : Env) (step : Step) : Outcome :=
  if step.action = some "click" then
    match step.element with
    | some el =>
      if el = "" then
        ([.log "Error: No element specified for click action"], none)
      else if env.clickFails el then
        ([.log ("Clicking element: " ++ el),
          .log ("Error clicking element " ++ el ++ ": ClickError")], none)
      else
        ([.log ("Clicking element: " ++ el), .click el, .sleep 500], none)
    | none => ([.log "Error: No element specified for click action"], none)
  else if step.action = some "wait_for_voice" then
    ([.log "Waiting for voice input...", .sleep 1000000], none)
  else if step.action = some "wait_for_silence" then
    ([.log "Waiting for silence...", .sleep 1000000], none)
  else if step.action = some "wait" then
    match step.element with
    | some el =>
      if el = "" then
        ([.log "Error: No element specified for wait action"], none)
      else if env.waitForSelectorFails el then
        ([.log ("Waiting for element: " ++ el)], some "TimeoutError")
      else
        ([.log ("Waiting for element: " ++ el), .waitForSelector el], none)
    | none => ([.log "Error: No element specified for wait action"], none)
  else if step.action = some "speak" then
    match step.text with
    | some t =>
      if t = "" then ([], none)
      else if env.evaluateFails (speakScript t) then
        ([.log ("Speaking: " ++ t)], some "EvaluateError")
      else
        ([.log ("Speaking: " ++ t), .evaluate (speakScript t), .sleep 10000], none)
    | none => ([], none)
  else
    ([.log ("Unknown action: " ++ pyShowOpt step.action)], none)

/-- Model of `execute_step` of `src/main.py`: the dispatch body followed — on normal
return only — by the `Elapsed time` print.  An escaping exception skips the
elapsed print. -/
def execute_step (env : Env) (step : Step) : Outcome :=
  match execute_step_core env step with
  | (tr, none) => (tr ++ [.logElapsed], none)
  | (tr, some e) => (tr, some e)

/-- Minimum duration of one event: a `sleep d` suspends for at least `d`
milliseconds; other operations have no lower bound. -/
def sleepMin : Event → Nat
  | .sleep ms => ms
  | _ => 0

/-- Wall-clock duration of a trace: each event takes its minimum duration plus
an arbitrary scheduling overhead `extra` chosen by the environment. -/
def elapsedOf (extra : Event → Nat) (tr : List Event) : Nat :=
  (tr.map (fun e => extra e + sleepMin e)).sum

/-- The elapsed time printed by `execute_step` for one step: measured from the
timestamp before dispatch to the one after the handler; reported only when the
handler returned normally (an escaping exception skips the print). -/
def reportedElapsed (extra : Event → Nat) (env : Env) (step : Step) : Option Nat :=
  match execute_step_core env step with
  | (tr, none) => some (elapsedOf extra tr)
  | (_, some _) => none

/-- One iteration of `inject_javascript_files` of `src/main.py`: try
`page.addScriptTag`; an injection error is caught per file and logged. -/
def injectOneFile (env : Env) (f : String) : List Event :=
  if env.addScriptTagFails f then
    [.log ("Error injecting " ++ f ++ ": InjectError")]
  else
    [.inject f, .log ("Injected: " ++ f)]

/-- Model of `inject_javascript_files` of `src/main.py`: inject every globbed file in
glob order; per-file errors are caught, so this function never raises. -/
def inject_javascript_files (env : Env) : List Event :=
  env.jsFiles.flatMap (injectOneFile env)

/-- The step loop of `run_scenario` in `src/main.py` starting at 1-based index
`i`: print the dispatch line, run `execute_step`; an exception escaping
`execute_step` escapes the loop and the remaining steps never run. -/
def run_steps_main (env : Env) (i : Nat) : List Step → Outcome
  | [] => ([], none)
  | s :: rest =>
    let d := execute_step env s
    let tr := Event.log ("Executing step " ++ toString i) :: d.1
    match d.2 with
    | none =>
      let r := run_steps_main env (i + 1) rest
      (tr ++ r.1, r.2)
    | some e => (tr, some e)

/-- The in-order, each-step-exactly-once dispatch trace from index `i`: what
the loop produces when every step is dispatched. -/
def traceOfSteps (env : Env) (i : Nat) : List Step → List Event
  | [] => []
  | s :: rest =>
    (Event.log ("Executing step " ++ toString i) :: (execute_step env s).1)
      ++ traceOfSteps env (i + 1) rest

/-- Model of `run_scenario` of `src/main.py`: launch, new page, navigate, inject, run
the steps, sleep 5 s, close — all inside one `try`; the `except` logs the
error.  `browser.close()` is the last statement of the `try` block, so it runs
only on the fully normal path. -/
def run_scenario_main (env : Env) (url : String) (steps : List Step) : List Event :=
  let body : Outcome :=
    if env.launchFails then ([], some "LaunchError")
    else seqE ([.launch], none)
      (if env.newPageFails then ([], some "NewPageError")
       else seqE ([.newPage], none)
        (if env.gotoFails then ([], some "NavigationError")
         else seqE ([.goto url], none)
          (seqE (inject_javascript_files env, none)
           (seqE (run_steps_main env 1 steps)
            ([.sleep 5000, .close], none)))))
  match body with
  | (tr, none) => tr
  | (tr, some e) => tr ++ [.log ("Error running scenario: " ++ e)]

/-! ## Embedding of `src/voice_agent_tester/__main.py` -/

/-- Value field of a step in the package entry point: `Union[str, int]`. -/
inductive Value where
  | s (v : String)
  | i (n : Int)
  deriving DecidableEq, Repr

/-- A validated `Step` of the package entry point. -/
structure StepV where
  action : String
  value : Value
  deriving DecidableEq, Repr

/-- A validated `Scenario` of the package entry point. -/
structure ScenarioV where
  name : String
  url : String
  javascript_file : String
  steps : List StepV
  deriving DecidableEq, Repr

/-- Python `str()` of a `Union[str, int]` value, as printed by the dispatch
line. -/
def showValue : Value → String
  | .s v => v
  | .i n => toString n

/-- Digit run of a Python decimal int literal: decimal digits with single
underscores allowed between digits; `prevDigit` says the previous character
was a digit.  At least one digit is required. -/
def pyDigitsAux : List Char → Nat → Bool → Option Nat
  | [], acc, prevDigit => if prevDigit then some acc else none
  | c :: rest, acc, prevDigit =>
    if c.isDigit then pyDigitsAux rest (acc * 10 + (c.toNat - 48)) true
    else if c = '_' then
      if prevDigit then
        match rest with
        | [] => none
        | d :: _ => if d.isDigit then pyDigitsAux rest acc false else none
      else none
    else none

/-- Python `int()` on a `Union[str, int]` value: identity on ints; on strings
it strips surrounding whitespace, accepts an optional `+` or `-` sign and
decimal digits with single underscores between digits; anything else raises
`ValueError` (`none`). -/
def pyInt : Value → Option Int
  | .i n => some n
  | .s v =>
    match (v.data.dropWhile Char.isWhitespace).reverse.dropWhile
        Char.isWhitespace |>.reverse with
    | '-' :: rest => (pyDigitsAux rest 0 false).map (fun n => -(n : Int))
    | '+' :: rest => (pyDigitsAux rest 0 false).map (fun n => (n : Int))
    | l => (pyDigitsAux l 0 false).map (fun n => (n : Int))

/-- Environment for one scenario of the package entry point: which awaited
operation raises, and the contents of the instrumentation assets that exist on
disk (`none` = file missing). -/
structure VatEnv where
  launchFails : Bool
  newPageFails : Bool
  gotoFails : Bool
  audioOutputHook : Option String
  audioInputHook : Option String
  scenarioJs : Option String
  evaluateFails : String → Bool

/-- One asset of the injection sequence in the package entry point: if the
file exists, print the injection line and `page.evaluate` its content (an
evaluation error escapes — this block has no per-asset handler); if it is
missing, print the warning only. -/
def injectAsset (env : VatEnv) (asset : Option String)
    (injLog warnLog : String) : Outcome :=
  match asset with
  | some c =>
    if env.evaluateFails c then ([.log injLog], some "EvaluateError")
    else ([.log injLog, .evaluate c], none)
  | none => ([.log warnLog], none)

/-- One iteration of the step loop in the package entry point: print the
dispatch line, then `wait` converts the value with `int()` (which may raise
`ValueError`) and sleeps that many seconds, `say` only prints, anything else
is logged as unknown. -/
def exec_step_vat (st : StepV) : Outcome :=
  let dispatch := Event.log ("Executing step: " ++ st.action ++ " " ++ showValue st.value)
  if st.action = "wait" then
    match pyInt st.value with
    | some n =>
      if n < 0 then ([dispatch], some "ValueError")
      else ([dispatch, .sleep (n.toNat * 1000)], none)
    | none => ([dispatch], some "ValueError")
  else if st.action = "say" then
    ([dispatch, .log ("Simulating voice input: " ++ showValue st.value)], none)
  else
    ([dispatch, .log ("Unknown action: " ++ st.action)], none)

/-- The step loop of the package entry point: an exception escaping one step
escapes the loop. -/
def run_steps_vat : List StepV → Outcome
  | [] => ([], none)
  | st :: rest => seqE (exec_step_vat st) (run_steps_vat rest)

/-- The fixed injection sequence of the package entry point: global
audio-output hook, then global audio-input hook, then the scenario-specific
script, each guarded by an existence check. -/
def injectSequence (env : VatEnv) (sc : ScenarioV) : Outcome :=
  seqE (injectAsset env env.audioOutputHook
          "Injecting audio output hooks"
          "Warning: Audio output hooks not found")
    (seqE (injectAsset env env.audioInputHook
            "Injecting audio input hooks"
            "Warning: Audio input hooks not found")
      (injectAsset env env.scenarioJs
          ("Injecting JavaScript from " ++ sc.javascript_file)
          "Warning: JavaScript file not found"))

/-- Model of `run_scenario` of the package entry point.  `launch` and `newPage` happen
before the `try`, so their exceptions escape the function with no `close`.
Everything else runs inside `try/except/finally`: any exception from the body
is caught and logged at scenario level, and `browser.close()` always runs in
the `finally`. -/
def run_scenario_vat (env : VatEnv) (sc : ScenarioV) : Outcome :=
  let pre := [Event.log ("Running scenario: " ++ sc.name)]
  if env.launchFails then (pre, some "LaunchError")
  else if env.newPageFails then (pre ++ [.launch], some "NewPageError")
  else
    let opened := pre ++ [Event.launch, Event.newPage]
    let body : Outcome :=
      if env.gotoFails then ([], some "NavigationError")
      else seqE ([.goto sc.url], none)
        (seqE (injectSequence env sc) (run_steps_vat sc.steps))
    match body with
    | (tr, none) => (opened ++ tr ++ [.close], none)
    | (tr, some e) =>
      (opened ++ tr
        ++ [.log ("An error occurred during scenario execution: " ++ e), .close], none)

/-- Outcome of loading and validating the configuration file in `run`:
missing file, schema violation, or a validated list of scenarios, each paired
with its runtime environment. -/
inductive ConfigResult where
  | fileNotFound
  | invalid
  | ok (scenarios : List (VatEnv × ScenarioV))

/-- The scenario loop of `run`: `asyncio.run(run_scenario(...))` per scenario;
an exception escaping one scenario escapes the loop. -/
def run_loop : List (VatEnv × ScenarioV) → Outcome
  | [] => ([], none)
  | (env, sc) :: rest => seqE (run_scenario_vat env sc) (run_loop rest)

/-- Model of `run` of the package entry point: configuration failures are caught by
their dedicated handlers before any scenario starts; any exception escaping
the scenario loop is caught by the catch-all handler, which ends the run. -/
def run_vat : ConfigResult → List Event
  | .fileNotFound => [.log "Error: Config file not found"]
  | .invalid => [.log "Error: Invalid configuration file format"]
  | .ok scenarios =>
    match run_loop scenarios with
    | (tr, none) => tr
    | (tr, some e) => tr ++ [.log ("An unexpected error occurred: " ++ e)]

/-! ## Page-side JavaScript string-literal semantics

The `speak` handler hands the page a script whose argument position holds the
raw interpolated text.  What the speech-synthesis entry point actually
receives is governed by JavaScript double-quoted string-literal parsing — an
external collaborator, modelled here just far enough to read one literal. -/

/-- Value of one escape `\c` inside a JavaScript double-quoted literal
(identity on the escapes relevant here: `\"` and `\\`). -/
def unescapeJs (c : Char) : Char :=
  if c = 'n' then '\n' else if c = 't' then '\t' else c

/-- Read a JavaScript double-quoted string literal body: the characters up to
the first unescaped `"`, and the remainder of the input after that quote;
`none` on an unterminated literal or on an unescaped line terminator (LF or
CR), which ECMAScript forbids inside a double-quoted literal — such a script
is a syntax error. -/
def jsParseDq : List Char → Option (List Char × List Char)
  | [] => none
  | c :: rest =>
    if c = '"' then some ([], rest)
    else if c = '\n' then none
    else if c = '\r' then none
    else if c = '\\' then
      match rest with
      | [] => none
      | d :: rest2 => (jsParseDq rest2).map (fun p => (unescapeJs d :: p.1, p.2))
    else
      (jsParseDq rest).map (fun p => (c :: p.1, p.2))

/-- Strip an expected leading character sequence; `none` when the input does
not start with it. -/
def dropPre : List Char → List Char → Option (List Char)
  | [], l => some l
  | _ :: _, [] => none
  | p :: ps, c :: cs => if p = c then dropPre ps cs else none

/-- The text that the speech-synthesis entry point of the page receives from an
evaluated script: the script must be the fixed call with one double-quoted
literal argument, and the argument is the parsed value of that literal; `none`
means the script is not that call (in particular, a syntax error — no
invocation happens). -/
def speakInvocationArg (script : String) : Option String :=
  match dropPre speakCallPre.data script.data with
  | none => none
  | some rest =>
    match jsParseDq rest with
    | none => none
    | some (content, r) =>
      if r = "))".data then some (String.mk content) else none

/-! ## Trace observations -/

/-- The scripts evaluated into the page, in trace order. -/
def evalsOf (tr : List Event) : List String :=
  tr.filterMap (fun e => match e with | .evaluate c => some c | _ => none)

/-- The files injected via `page.addScriptTag`, in trace order. -/
def injectsOf (tr : List Event) : List String :=
  tr.filterMap (fun e => match e with | .inject f => some f | _ => none)

/-- Number of `close` commands issued to the browser in a trace. -/
def closeCount (tr : List Event) : Nat :=
  tr.countP (fun e => decide (e = Event.close))

/-! ## Concrete fixtures used by witnesses and counterexamples -/

/-- Environment for `src/main.py` in which every browser operation succeeds. -/
def envOk : Env :=
  ⟨false, false, false, [], fun _ => false, fun _ => false, fun _ => false, fun _ => false⟩

/-- Environment in which `page.click` raises for every selector. -/
def envClickFail : Env := { envOk with clickFails := fun _ => true }

/-- Environment in which `page.waitForSelector` raises for every selector. -/
def envWaitFail : Env := { envOk with waitForSelectorFails := fun _ => true }

/-- Environment in which `page.evaluate` raises for every script. -/
def envSpeakFail : Env := { envOk with evaluateFails := fun _ => true }

/-- Package entry-point environment: browser healthy, audio-output hook and
scenario script on disk, audio-input hook missing. -/
def vatOk : VatEnv :=
  ⟨false, false, false, some "outHookContent", none, some "probeContent", fun _ => false⟩

/-- Package entry-point environment whose browser launch fails. -/
def vatLaunchFail : VatEnv := { vatOk with launchFails := true }

/-- Two-step scenario for the package entry point: a `wait` step whose value
cannot be converted by `int()`, followed by a `say` step. -/
def scWaitBad : ScenarioV :=
  ⟨"s1", "u1", "f1.js", [⟨"wait", .s "abc"⟩, ⟨"say", .s "hi"⟩]⟩

/-- Empty scenario named `s2`. -/
def scEmpty2 : ScenarioV := ⟨"s2", "u2", "f2.js", []⟩

/-- Environment whose javascript-folder glob finds one file and whose
`page.addScriptTag` raises for every file. -/
def envInjFail : Env :=
  { envOk with jsFiles := ["hooks.js"], addScriptTagFails := fun _ => true }

/-- Environment whose javascript-folder glob returns the audio-input hook
before the audio-output hook — `glob.glob` promises no particular order. -/
def envGlobSwapped : Env :=
  { envOk with jsFiles := ["audio_input_hooks.js", "audio_output_hooks.js"] }

/-- Two-step list for `src/main.py`: a `speak` step followed by a `click`
step. -/
def stepsSpeakFirst : List Step :=
  [⟨some "speak", none, some "hi"⟩, ⟨some "click", some "#a", none⟩]

/-! ## Helper lemmas -/

theorem seqE_eq_of_none (a b : Outcome) (h : a.2 = none) :
    seqE a b = (a.1 ++ b.1, b.2) := by
  rcases a with ⟨tr, exn⟩
  cases exn
  · rfl
  · simp at h

theorem evalsOf_append (a b : List Event) :
    evalsOf (a ++ b) = evalsOf a ++ evalsOf b := by
  simp [evalsOf]

theorem evalsOf_exec_step_vat (st : StepV) : evalsOf (exec_step_vat st).1 = [] := by
  unfold exec_step_vat
  repeat' split
  all_goals simp [evalsOf]

theorem evalsOf_run_steps_vat (l : List StepV) : evalsOf (run_steps_vat l).1 = [] := by
  induction l with
  | nil => simp [run_steps_vat, evalsOf]
  | cons st rest ih =>
    rcases h : exec_step_vat st with ⟨tr, exn⟩
    have htr : evalsOf tr = [] := by
      have h2 := evalsOf_exec_step_vat st
      rwa [h] at h2
    cases exn <;> simp [run_steps_vat, seqE, h, evalsOf_append, htr, ih]

theorem closeCount_append (a b : List Event) :
    closeCount (a ++ b) = closeCount a + closeCount b := by
  simp [closeCount, List.countP_append]

theorem closeCount_eq_zero_of_not_mem (tr : List Event) (h : Event.close ∉ tr) :
    closeCount tr = 0 := by
  unfold closeCount
  rw [List.countP_eq_zero]
  intro a ha
  simp only [decide_eq_true_eq]
  rintro rfl
  exact h ha

theorem close_not_mem_seqE (a b : Outcome) (ha : Event.close ∉ a.1)
    (hb : Event.close ∉ b.1) : Event.close ∉ (seqE a b).1 := by
  rcases a with ⟨tr, exn⟩
  cases exn <;> simp_all [seqE]

theorem close_not_mem_exec_step_vat (st : StepV) :
    Event.close ∉ (exec_step_vat st).1 := by
  unfold exec_step_vat
  repeat' split
  all_goals simp

theorem close_not_mem_run_steps_vat (l : List StepV) :
    Event.close ∉ (run_steps_vat l).1 := by
  induction l with
  | nil => simp [run_steps_vat]
  | cons st rest ih =>
    exact close_not_mem_seqE _ _ (close_not_mem_exec_step_vat st) ih

theorem close_not_mem_injectAsset (env : VatEnv) (a : Option String) (il wl : String) :
    Event.close ∉ (injectAsset env a il wl).1 := by
  unfold injectAsset
  repeat' split
  all_goals simp

theorem close_not_mem_injectSequence (env : VatEnv) (sc : ScenarioV) :
    Event.close ∉ (injectSequence env sc).1 :=
  close_not_mem_seqE _ _ (close_not_mem_injectAsset env _ _ _)
    (close_not_mem_seqE _ _ (close_not_mem_injectAsset env _ _ _)
      (close_not_mem_injectAsset env _ _ _))

theorem injectAsset_exn_none (env : VatEnv) (a : Option String) (il wl : String)
    (h : ∀ c, env.evaluateFails c = false) :
    (injectAsset env a il wl).2 = none := by
  cases a <;> simp [injectAsset, h]

theorem evalsOf_injectAsset (env : VatEnv) (a : Option String) (il wl : String)
    (h : ∀ c, env.evaluateFails c = false) :
    evalsOf (injectAsset env a il wl).1 = a.toList := by
  cases a <;> simp [injectAsset, h, evalsOf]

theorem warn_mem_injectAsset (env : VatEnv) (il wl : String) :
    Event.log wl ∈ (injectAsset env none il wl).1 := by
  simp [injectAsset]

theorem closeCount_cons_log (s : String) (tr : List Event) :
    closeCount (Event.log s :: tr) = closeCount tr := by
  simp [closeCount, List.countP_cons]

theorem close_not_mem_execute_step_core (env : Env) (step : Step) :
    Event.close ∉ (execute_step_core env step).1 := by
  unfold execute_step_core
  repeat' split
  all_goals simp

theorem close_not_mem_execute_step (env : Env) (step : Step) :
    Event.close ∉ (execute_step env step).1 := by
  rcases hc : execute_step_core env step with ⟨tr, exn⟩
  have h0 : Event.close ∉ tr := by
    have h1 := close_not_mem_execute_step_core env step
    rwa [hc] at h1
  cases exn <;> simp_all [execute_step, hc]

theorem close_not_mem_run_steps_main (env : Env) (steps : List Step) :
    ∀ i : Nat, Event.close ∉ (run_steps_main env i steps).1 := by
  induction steps with
  | nil => intro i; simp [run_steps_main]
  | cons s rest ih =>
    intro i
    rcases hs : execute_step env s with ⟨tr, exn⟩
    have h0 : Event.close ∉ tr := by
      have h1 := close_not_mem_execute_step env s
      rwa [hs] at h1
    cases exn <;> simp_all [run_steps_main, hs]

theorem close_not_mem_injectOneFile (env : Env) (f : String) :
    Event.close ∉ injectOneFile env f := by
  unfold injectOneFile
  split <;> simp

theorem close_not_mem_inject_javascript_files (env : Env) :
    Event.close ∉ inject_javascript_files env := by
  unfold inject_javascript_files
  induction env.jsFiles with
  | nil => simp
  | cons f fs ih =>
    simp_all [List.flatMap_cons, close_not_mem_injectOneFile]

theorem injectsOf_append (a b : List Event) :
    injectsOf (a ++ b) = injectsOf a ++ injectsOf b := by
  simp [injectsOf]

theorem injectsOf_injectOneFile (env : Env) (f : String)
    (hf : env.addScriptTagFails f = false) :
    injectsOf (injectOneFile env f) = [f] := by
  simp [injectOneFile, hf, injectsOf]

theorem dropPre_append (p l : List Char) : dropPre p (p ++ l) = some l := by
  induction p with
  | nil => simp [dropPre]
  | cons c cs ih => simp [dropPre, ih]

theorem jsParseDq_clean (l rest : List Char)
    (h : ∀ c ∈ l, c ≠ '"' ∧ c ≠ '\\' ∧ c ≠ '\n' ∧ c ≠ '\r') :
    jsParseDq (l ++ '"' :: rest) = some (l, rest) := by
  induction l with
  | nil =>
    simp only [List.nil_append]
    unfold jsParseDq
    simp
  | cons c cs ih =>
    obtain ⟨h1, h2, h3, h4⟩ := h c (List.mem_cons_self c cs)
    have ih2 := ih (fun x hx => h x (List.mem_cons_of_mem c hx))
    simp only [List.cons_append]
    unfold jsParseDq
    simp [h1, h2, h3, h4, ih2]

theorem speakInvocationArg_clean (t : String)
    (h : ∀ c ∈ t.data, c ≠ '"' ∧ c ≠ '\\' ∧ c ≠ '\n' ∧ c ≠ '\r') :
    speakInvocationArg (speakScript t) = some t := by
  obtain ⟨l⟩ := t
  have hparse : jsParseDq (l ++ '"' :: (')' :: ')' :: []))
      = some (l, ')' :: ')' :: []) := jsParseDq_clean l _ h
  have hdata : (speakScript ⟨l⟩).data
      = speakCallPre.data ++ (l ++ '"' :: (')' :: ')' :: [])) := by
    simp [speakScript, String.data_append]
  simp only [speakInvocationArg, hdata, dropPre_append, hparse]
  rfl

/-! ## Claim theorems -/

/-- Claim C6: a `wait_for_voice` or `wait_for_silence` step never fails — the
handler is a pure fixed delay of 1000 seconds — and the elapsed time reported
for the step is at least that configured duration, whatever scheduling
overhead the environment adds. -/
theorem c6_fixed_wait_never_fails (env : Env) (step : Step) (extra : Event → Nat)
    (h : step.action = some "wait_for_voice" ∨ step.action = some "wait_for_silence") :
    (execute_step env step).2 = none ∧
    ∃ n, reportedElapsed extra env step = some n ∧ 1000000 ≤ n := by
  have key : ∀ m : String,
      execute_step_core env step = ([.log m, .sleep 1000000], none) →
      (execute_step env step).2 = none ∧
      ∃ n, reportedElapsed extra env step = some n ∧ 1000000 ≤ n := by
    intro m hc
    constructor
    · simp [execute_step, hc]
    · refine ⟨elapsedOf extra [Event.log m, Event.sleep 1000000], ?_, ?_⟩
      · simp [reportedElapsed, hc]
      · simp [elapsedOf, sleepMin]
        omega
  rcases h with h | h
  · exact key "Waiting for voice input..." (by simp [execute_step_core, h])
  · exact key "Waiting for silence..." (by simp [execute_step_core, h])

/-- Witness for C6 at a concrete `wait_for_voice` step with zero scheduling
overhead. -/
theorem c6_fixed_wait_never_fails_witness :
    (execute_step envOk ⟨some "wait_for_voice", none, none⟩).2 = none ∧
    ∃ n, reportedElapsed (fun _ => 0) envOk ⟨some "wait_for_voice", none, none⟩
        = some n ∧ 1000000 ≤ n :=
  c6_fixed_wait_never_fails envOk ⟨some "wait_for_voice", none, none⟩
    (fun _ => 0) (Or.inl rfl)

/-- Claim C7: a `click` step whose click raises has its failure logged as a
failure entry, the error does not escape the interpreter loop (the loop
continues with the remaining steps), and a successful click is followed by the
fixed 0.5-second settle interval. -/
theorem c7_click_failure_isolated (env : Env) (el : String) (rest : List Step)
    (i : Nat) (hel : el ≠ "") :
    (env.clickFails el = true →
      (execute_step env ⟨some "click", some el, none⟩).2 = none ∧
      Event.log ("Error clicking element " ++ el ++ ": ClickError")
        ∈ (execute_step env ⟨some "click", some el, none⟩).1 ∧
      run_steps_main env i (⟨some "click", some el, none⟩ :: rest) =
        ((Event.log ("Executing step " ++ toString i)
            :: (execute_step env ⟨some "click", some el, none⟩).1)
          ++ (run_steps_main env (i + 1) rest).1,
         (run_steps_main env (i + 1) rest).2)) ∧
    (env.clickFails el = false →
      execute_step_core env ⟨some "click", some el, none⟩ =
        ([.log ("Clicking element: " ++ el), .click el, .sleep 500], none)) := by
  constructor
  · intro hf
    have hc : execute_step_core env ⟨some "click", some el, none⟩ =
        ([.log ("Clicking element: " ++ el),
          .log ("Error clicking element " ++ el ++ ": ClickError")], none) := by
      simp [execute_step_core, hel, hf]
    have he : execute_step env ⟨some "click", some el, none⟩ =
        ([.log ("Clicking element: " ++ el),
          .log ("Error clicking element " ++ el ++ ": ClickError"),
          .logElapsed], none) := by
      simp [execute_step, hc]
    refine ⟨by simp [he], by simp [he], ?_⟩
    simp [run_steps_main, he]
  · intro hf
    simp [execute_step_core, hel, hf]

/-- Witness for C7: the failing case in an environment where every click
raises, the success case in a healthy environment. -/
theorem c7_click_failure_isolated_witness :
    ((execute_step envClickFail ⟨some "click", some "#a", none⟩).2 = none ∧
      Event.log ("Error clicking element " ++ "#a" ++ ": ClickError")
        ∈ (execute_step envClickFail ⟨some "click", some "#a", none⟩).1 ∧
      run_steps_main envClickFail 1 [⟨some "click", some "#a", none⟩] =
        ((Event.log ("Executing step " ++ toString 1)
            :: (execute_step envClickFail ⟨some "click", some "#a", none⟩).1)
          ++ (run_steps_main envClickFail 2 []).1,
         (run_steps_main envClickFail 2 []).2)) ∧
    execute_step_core envOk ⟨some "click", some "#a", none⟩ =
      ([.log ("Clicking element: " ++ "#a"), .click "#a", .sleep 500], none) :=
  ⟨(c7_click_failure_isolated envClickFail "#a" [] 1 (by decide)).1 rfl,
   (c7_click_failure_isolated envOk "#a" [] 1 (by decide)).2 rfl⟩

/-- Claim C8: a step whose action kind is not one of the recognized kinds is a
logged no-op in both entry points — never an exception, never fatal. -/
theorem c8_unknown_action_noop :
    (∀ (env : Env) (step : Step) (a : String), step.action = some a →
      a ∉ (["click", "wait_for_voice", "wait_for_silence", "wait", "speak"] : List String) →
      execute_step env step = ([.log ("Unknown action: " ++ a), .logElapsed], none)) ∧
    (∀ st : StepV, st.action ≠ "wait" → st.action ≠ "say" →
      exec_step_vat st =
        ([.log ("Executing step: " ++ st.action ++ " " ++ showValue st.value),
          .log ("Unknown action: " ++ st.action)], none)) := by
  constructor
  · intro env step a ha hmem
    simp only [List.mem_cons, List.not_mem_nil, or_false, not_or] at hmem
    obtain ⟨h1, h2, h3, h4, h5⟩ := hmem
    simp [execute_step, execute_step_core, ha, pyShowOpt, h1, h2, h3, h4, h5]
  · intro st hw hs
    simp [exec_step_vat, hw, hs]

/-- Witness for C8 at a concrete unrecognized action in both entry points. -/
theorem c8_unknown_action_noop_witness :
    execute_step envOk ⟨some "dance", none, none⟩ =
      ([.log ("Unknown action: " ++ "dance"), .logElapsed], none) ∧
    exec_step_vat ⟨"dance", .s "x"⟩ =
      ([.log ("Executing step: " ++ "dance" ++ " " ++ showValue (.s "x")),
        .log ("Unknown action: " ++ "dance")], none) :=
  ⟨c8_unknown_action_noop.1 envOk ⟨some "dance", none, none⟩ "dance" rfl (by decide),
   c8_unknown_action_noop.2 ⟨"dance", .s "x"⟩ (by decide) (by decide)⟩

/-- Claim C10: a `speak` step whose text is missing or empty performs no
speech-synthesis invocation and emits no error or failure log entry — the
full trace of the step is just the elapsed-time report — yet an elapsed-time
measurement is still reported (here, zero handler time). -/
theorem c10_speak_empty_silently_skipped (env : Env) (extra : Event → Nat)
    (el tx : Option String) (h : tx = none ∨ tx = some "") :
    execute_step env ⟨some "speak", el, tx⟩ = ([Event.logElapsed], none) ∧
    reportedElapsed extra env ⟨some "speak", el, tx⟩ = some 0 := by
  rcases h with h | h <;> subst h <;>
    simp [execute_step, execute_step_core, reportedElapsed, elapsedOf]

/-- Witness for C10 at a concrete `speak` step with a missing text field. -/
theorem c10_speak_empty_silently_skipped_witness :
    execute_step envOk ⟨some "speak", none, none⟩ = ([Event.logElapsed], none) ∧
    reportedElapsed (fun _ => 0) envOk ⟨some "speak", none, none⟩ = some 0 :=
  c10_speak_empty_silently_skipped envOk (fun _ => 0) none none (Or.inl rfl)

/-- Claim C1 is false as stated: in the package entry point, a `wait` step
whose value cannot be converted raises `ValueError`, which escapes the
interpreter loop (it is caught only at scenario level) and the following
`say` step is never attempted. -/
theorem c1_counterexample :
    (run_steps_vat scWaitBad.steps).2 = some "ValueError" ∧
    Event.log "Executing step: say hi" ∉ (run_scenario_vat vatOk scWaitBad).1 ∧
    Event.log "An error occurred during scenario execution: ValueError"
      ∈ (run_scenario_vat vatOk scWaitBad).1 := by decide

/-- Claim C1 (amended): only the `click` handler catches its failures at the
step boundary; an exception raised by any other step handler escapes the
interpreter loop — the loop stops with that exception and the remaining steps
are never dispatched. -/
theorem c1_amended_click_only_isolated :
    (∀ (env : Env) (el : String), el ≠ "" → env.clickFails el = true →
      (execute_step env ⟨some "click", some el, none⟩).2 = none) ∧
    (∀ (env : Env) (s : Step) (rest : List Step) (i : Nat) (e : String),
      (execute_step env s).2 = some e →
      run_steps_main env i (s :: rest) =
        (Event.log ("Executing step " ++ toString i) :: (execute_step env s).1,
         some e)) := by
  constructor
  · intro env el hel hf
    simp [execute_step, execute_step_core, hel, hf]
  · intro env s rest i e he
    rcases hs : execute_step env s with ⟨tr, exn⟩
    rw [hs] at he
    simp only at he
    subst he
    simp [run_steps_main, hs]

/-- Witness for the amended C1: a failing click is contained, a failing
`wait` stops the loop. -/
theorem c1_amended_click_only_isolated_witness :
    (execute_step envClickFail ⟨some "click", some "#b", none⟩).2 = none ∧
    run_steps_main envWaitFail 1 [⟨some "wait", some "#w", none⟩] =
      (Event.log ("Executing step " ++ toString 1)
        :: (execute_step envWaitFail ⟨some "wait", some "#w", none⟩).1,
       some "TimeoutError") :=
  ⟨c1_amended_click_only_isolated.1 envClickFail "#b" (by decide) rfl,
   c1_amended_click_only_isolated.2 envWaitFail ⟨some "wait", some "#w", none⟩
     [] 1 "TimeoutError" (by decide)⟩

/-- Claim C3 is false as stated: dispatch is not independent of step failures.
With an environment where `page.evaluate` raises, the exception of the first
(`speak`) step aborts the loop and the second step is never dispatched. -/
theorem c3_counterexample :
    Event.log ("Executing step " ++ toString 2)
      ∉ (run_steps_main envSpeakFail 1 stepsSpeakFirst).1 ∧
    (run_steps_main envSpeakFail 1 stepsSpeakFirst).2 = some "EvaluateError" := by
  decide

/-- Claim C3 (amended): the interpreter dispatches steps strictly
sequentially in file order, never reordered or repeated: the dispatched steps
are always a prefix of the list (all of it exactly when the loop finishes
normally), and when no step handler raises, every step is dispatched exactly
once in file order. -/
theorem c3_amended_sequential_prefix_dispatch (env : Env) (steps : List Step) :
    ∀ i : Nat,
    (∃ k, k ≤ steps.length ∧
      (run_steps_main env i steps).1 = traceOfSteps env i (steps.take k) ∧
      ((run_steps_main env i steps).2 = none → k = steps.length)) ∧
    ((∀ s ∈ steps, (execute_step env s).2 = none) →
      run_steps_main env i steps = (traceOfSteps env i steps, none)) := by
  induction steps with
  | nil =>
    intro i
    refine ⟨⟨0, by simp, by simp [run_steps_main, traceOfSteps], fun _ => rfl⟩, ?_⟩
    intro _
    simp [run_steps_main, traceOfSteps]
  | cons s rest ih =>
    intro i
    rcases hs : execute_step env s with ⟨tr, exn⟩
    constructor
    · cases exn with
      | none =>
        obtain ⟨k, hk, htr, hnone⟩ := (ih (i + 1)).1
        refine ⟨k + 1, by simpa using hk, ?_, ?_⟩
        · simp [run_steps_main, hs, traceOfSteps, List.take_succ_cons, htr]
        · intro h2
          simp only [run_steps_main, hs] at h2
          simp [hnone h2]
      | some e =>
        refine ⟨1, by simp, ?_, ?_⟩
        · simp [run_steps_main, hs, traceOfSteps, List.take_succ_cons]
        · intro h2
          simp [run_steps_main, hs] at h2
    · intro hall
      have h1 : (execute_step env s).2 = none := hall s (List.mem_cons_self s rest)
      have hrest := (ih (i + 1)).2 (fun x hx => hall x (List.mem_cons_of_mem s hx))
      rw [hs] at h1
      simp only at h1
      subst h1
      simp [run_steps_main, hs, traceOfSteps, hrest]

/-- Witness for the amended C3: with no failing handler, both steps are
dispatched exactly once, in order. -/
theorem c3_amended_sequential_prefix_dispatch_witness :
    run_steps_main envOk 1 stepsSpeakFirst =
      (traceOfSteps envOk 1 stepsSpeakFirst, none) :=
  (c3_amended_sequential_prefix_dispatch envOk stepsSpeakFirst 1).2 (by decide)

/-- Claim C2 is false as stated: in `src/main.py`, a step-handler failure
(here a failing `wait`) reaches the scenario-level handler and
`browser.close()` — the last statement of the `try` block — never runs, even
though the session was created. -/
theorem c2_counterexample :
    Event.launch ∈ run_scenario_main envWaitFail "u" [⟨some "wait", some "#x", none⟩] ∧
    Event.close ∉ run_scenario_main envWaitFail "u" [⟨some "wait", some "#x", none⟩] := by
  decide

/-- Claim C2 (amended): in the package entry point the session is closed
exactly once on every exit path after it is created (the close sits in a
`finally`); in the script entry point a step-handler failure that escapes the
interpreter loop leaves the session unclosed, while a run whose loop finishes
normally — including runs with injection failures, which
`inject_javascript_files` catches per file — closes the session exactly
once. -/
theorem c2_amended_close_once_vs_leak :
    (∀ (env : VatEnv) (sc : ScenarioV),
      env.launchFails = false → env.newPageFails = false →
      closeCount (run_scenario_vat env sc).1 = 1) ∧
    (∀ (env : Env) (url : String) (steps : List Step) (e : String),
      env.launchFails = false → env.newPageFails = false → env.gotoFails = false →
      (run_steps_main env 1 steps).2 = some e →
      Event.close ∉ run_scenario_main env url steps) ∧
    (∀ (env : Env) (url : String) (steps : List Step),
      env.launchFails = false → env.newPageFails = false → env.gotoFails = false →
      (run_steps_main env 1 steps).2 = none →
      closeCount (run_scenario_main env url steps) = 1) := by
  refine ⟨?_, ?_, ?_⟩
  · intro env sc hl hn
    rcases hb : (if env.gotoFails then (([], some "NavigationError") : Outcome)
        else seqE ([Event.goto sc.url], none)
          (seqE (injectSequence env sc) (run_steps_vat sc.steps))) with ⟨tr, exn⟩
    have hbody : Event.close ∉ tr := by
      have hb1 : Event.close ∉ (if env.gotoFails then (([], some "NavigationError") : Outcome)
          else seqE ([Event.goto sc.url], none)
            (seqE (injectSequence env sc) (run_steps_vat sc.steps))).1 := by
        split
        · simp
        · exact close_not_mem_seqE _ _ (by simp)
            (close_not_mem_seqE _ _ (close_not_mem_injectSequence env sc)
              (close_not_mem_run_steps_vat sc.steps))
      rw [hb] at hb1
      exact hb1
    cases exn with
    | none =>
      have htr : run_scenario_vat env sc =
          ([Event.log ("Running scenario: " ++ sc.name), Event.launch, Event.newPage]
            ++ tr ++ [Event.close], none) := by
        simp [run_scenario_vat, hl, hn, hb]
      rw [htr]
      show closeCount (_ ++ tr ++ _) = 1
      rw [closeCount_append, closeCount_append, closeCount_eq_zero_of_not_mem tr hbody]
      simp [closeCount, List.countP_cons]
    | some e =>
      have htr : run_scenario_vat env sc =
          ([Event.log ("Running scenario: " ++ sc.name), Event.launch, Event.newPage]
            ++ tr
            ++ [Event.log ("An error occurred during scenario execution: " ++ e),
                Event.close], none) := by
        simp [run_scenario_vat, hl, hn, hb]
      rw [htr]
      show closeCount (_ ++ tr ++ _) = 1
      rw [closeCount_append, closeCount_append, closeCount_eq_zero_of_not_mem tr hbody]
      simp [closeCount, List.countP_cons]
  · intro env url steps e hl hn hg hsteps
    rcases hrs : run_steps_main env 1 steps with ⟨str, sexn⟩
    rw [hrs] at hsteps
    simp only at hsteps
    subst hsteps
    have h1 : Event.close ∉ str := by
      have h2 := close_not_mem_run_steps_main env steps 1
      rwa [hrs] at h2
    have htr : run_scenario_main env url steps =
        [Event.launch, Event.newPage, Event.goto url] ++ inject_javascript_files env
          ++ str ++ [Event.log ("Error running scenario: " ++ e)] := by
      simp [run_scenario_main, hl, hn, hg, hrs, seqE]
    rw [htr]
    simp [List.mem_append, h1, close_not_mem_inject_javascript_files env]
  · intro env url steps hl hn hg hsteps
    rcases hrs : run_steps_main env 1 steps with ⟨str, sexn⟩
    rw [hrs] at hsteps
    simp only at hsteps
    subst hsteps
    have h1 : Event.close ∉ str := by
      have h2 := close_not_mem_run_steps_main env steps 1
      rwa [hrs] at h2
    have htr : run_scenario_main env url steps =
        [Event.launch, Event.newPage, Event.goto url] ++ inject_javascript_files env
          ++ str ++ [Event.sleep 5000, Event.close] := by
      simp [run_scenario_main, hl, hn, hg, hrs, seqE]
    rw [htr, closeCount_append, closeCount_append, closeCount_append]
    rw [closeCount_eq_zero_of_not_mem _ (close_not_mem_inject_javascript_files env),
        closeCount_eq_zero_of_not_mem str h1]
    simp [closeCount, List.countP_cons]

/-- Witness for the amended C2: the package entry point closes once on a
healthy run; the script entry point leaves the session open after a failing
`wait` step, yet closes exactly once when the loop finishes normally even
though every script-tag injection failed. -/
theorem c2_amended_close_once_vs_leak_witness :
    closeCount (run_scenario_vat vatOk scEmpty2).1 = 1 ∧
    Event.close ∉ run_scenario_main envWaitFail "u2" [⟨some "wait", some "#x", none⟩] ∧
    closeCount (run_scenario_main envInjFail "u3" [⟨some "click", some "#a", none⟩]) = 1 :=
  ⟨c2_amended_close_once_vs_leak.1 vatOk scEmpty2 rfl rfl,
   c2_amended_close_once_vs_leak.2.1 envWaitFail "u2" [⟨some "wait", some "#x", none⟩]
     "TimeoutError" rfl rfl rfl (by decide),
   c2_amended_close_once_vs_leak.2.2 envInjFail "u3" [⟨some "click", some "#a", none⟩]
     rfl rfl rfl (by decide)⟩

/-- Claim C9 is false as stated: in a two-scenario configuration where the
browser launch of the first scenario fails, the exception escapes `run_scenario`
and is caught by the catch-all handler of `run`, which ends the loop — the
second scenario never starts. -/
theorem c9_counterexample :
    Event.log "Running scenario: s2"
      ∉ run_vat (ConfigResult.ok [(vatLaunchFail, scWaitBad), (vatOk, scEmpty2)]) ∧
    Event.log "Running scenario: s1"
      ∈ run_vat (ConfigResult.ok [(vatLaunchFail, scWaitBad), (vatOk, scEmpty2)]) := by
  decide

/-- Claim C9 (amended): a launch failure means no steps run and no session
exists for that scenario, and configuration failures abort before any session
opens — but the launch failure aborts the entire remaining run (it is caught
by the top-level catch-all), not just that one scenario. -/
theorem c9_amended_launch_aborts_whole_run :
    (∀ (e : VatEnv) (sc : ScenarioV) (rest : List (VatEnv × ScenarioV)),
      e.launchFails = true →
      run_vat (ConfigResult.ok ((e, sc) :: rest)) =
        [Event.log ("Running scenario: " ++ sc.name),
         Event.log "An unexpected error occurred: LaunchError"]) ∧
    Event.launch ∉ run_vat ConfigResult.fileNotFound ∧
    Event.launch ∉ run_vat ConfigResult.invalid := by
  refine ⟨?_, by decide, by decide⟩
  intro e sc rest he
  simp [run_vat, run_loop, run_scenario_vat, he, seqE]

/-- Witness for the amended C9 at a concrete one-scenario configuration whose
launch fails. -/
theorem c9_amended_launch_aborts_whole_run_witness :
    run_vat (ConfigResult.ok [(vatLaunchFail, scEmpty2)]) =
      [Event.log ("Running scenario: " ++ scEmpty2.name),
       Event.log "An unexpected error occurred: LaunchError"] :=
  c9_amended_launch_aborts_whole_run.1 vatLaunchFail scEmpty2 [] rfl

/-- In the package entry point, the instrumentation assets are evaluated into
the page in the fixed order audio-output hook, audio-input hook, scenario
script; a missing asset yields its warning while every present asset is still
evaluated in that relative order; and all of this happens before the first
scripted step runs (the step part of the trace evaluates nothing). -/
theorem vat_injection_fixed_order (env : VatEnv) (sc : ScenarioV)
    (hl : env.launchFails = false) (hn : env.newPageFails = false)
    (hg : env.gotoFails = false) (he : ∀ c, env.evaluateFails c = false) :
    ∃ front tail,
      (run_scenario_vat env sc).1 = front ++ (run_steps_vat sc.steps).1 ++ tail ∧
      evalsOf front = env.audioOutputHook.toList ++ env.audioInputHook.toList
          ++ env.scenarioJs.toList ∧
      evalsOf (run_steps_vat sc.steps).1 = [] ∧
      evalsOf tail = [] ∧
      (env.audioOutputHook = none →
        Event.log "Warning: Audio output hooks not found" ∈ front) ∧
      (env.audioInputHook = none →
        Event.log "Warning: Audio input hooks not found" ∈ front) ∧
      (env.scenarioJs = none →
        Event.log "Warning: JavaScript file not found" ∈ front) := by
  rcases h1 : injectAsset env env.audioOutputHook "Injecting audio output hooks"
      "Warning: Audio output hooks not found" with ⟨t1, x1⟩
  rcases h2 : injectAsset env env.audioInputHook "Injecting audio input hooks"
      "Warning: Audio input hooks not found" with ⟨t2, x2⟩
  rcases h3 : injectAsset env env.scenarioJs
      ("Injecting JavaScript from " ++ sc.javascript_file)
      "Warning: JavaScript file not found" with ⟨t3, x3⟩
  have hx1 : x1 = none := by
    have h := injectAsset_exn_none env env.audioOutputHook
      "Injecting audio output hooks" "Warning: Audio output hooks not found" he
    rwa [h1] at h
  have hx2 : x2 = none := by
    have h := injectAsset_exn_none env env.audioInputHook
      "Injecting audio input hooks" "Warning: Audio input hooks not found" he
    rwa [h2] at h
  have hx3 : x3 = none := by
    have h := injectAsset_exn_none env env.scenarioJs
      ("Injecting JavaScript from " ++ sc.javascript_file)
      "Warning: JavaScript file not found" he
    rwa [h3] at h
  subst hx1
  subst hx2
  subst hx3
  have hev1 : evalsOf t1 = env.audioOutputHook.toList := by
    have h := evalsOf_injectAsset env env.audioOutputHook
      "Injecting audio output hooks" "Warning: Audio output hooks not found" he
    rwa [h1] at h
  have hev2 : evalsOf t2 = env.audioInputHook.toList := by
    have h := evalsOf_injectAsset env env.audioInputHook
      "Injecting audio input hooks" "Warning: Audio input hooks not found" he
    rwa [h2] at h
  have hev3 : evalsOf t3 = env.scenarioJs.toList := by
    have h := evalsOf_injectAsset env env.scenarioJs
      ("Injecting JavaScript from " ++ sc.javascript_file)
      "Warning: JavaScript file not found" he
    rwa [h3] at h
  have hinj : injectSequence env sc = (t1 ++ (t2 ++ t3), none) := by
    simp [injectSequence, h1, h2, h3, seqE]
  rcases hst : run_steps_vat sc.steps with ⟨str, sexn⟩
  have hfront : evalsOf ([Event.log ("Running scenario: " ++ sc.name),
      Event.launch, Event.newPage, Event.goto sc.url] ++ (t1 ++ (t2 ++ t3)))
      = env.audioOutputHook.toList ++ env.audioInputHook.toList
          ++ env.scenarioJs.toList := by
    rw [evalsOf_append, evalsOf_append, evalsOf_append, hev1, hev2, hev3]
    simp [evalsOf, List.append_assoc]
  have hstr : evalsOf str = [] := by
    have h := evalsOf_run_steps_vat sc.steps
    rwa [hst] at h
  have hw1 : env.audioOutputHook = none →
      Event.log "Warning: Audio output hooks not found"
        ∈ [Event.log ("Running scenario: " ++ sc.name),
           Event.launch, Event.newPage, Event.goto sc.url] ++ (t1 ++ (t2 ++ t3)) := by
    intro hnone
    rw [hnone] at h1
    have ht1 : t1 = [Event.log "Warning: Audio output hooks not found"] := by
      have h := congrArg Prod.fst h1
      simpa [injectAsset] using h.symm
    simp [ht1]
  have hw2 : env.audioInputHook = none →
      Event.log "Warning: Audio input hooks not found"
        ∈ [Event.log ("Running scenario: " ++ sc.name),
           Event.launch, Event.newPage, Event.goto sc.url] ++ (t1 ++ (t2 ++ t3)) := by
    intro hnone
    rw [hnone] at h2
    have ht2 : t2 = [Event.log "Warning: Audio input hooks not found"] := by
      have h := congrArg Prod.fst h2
      simpa [injectAsset] using h.symm
    simp [ht2]
  have hw3 : env.scenarioJs = none →
      Event.log "Warning: JavaScript file not found"
        ∈ [Event.log ("Running scenario: " ++ sc.name),
           Event.launch, Event.newPage, Event.goto sc.url] ++ (t1 ++ (t2 ++ t3)) := by
    intro hnone
    rw [hnone] at h3
    have ht3 : t3 = [Event.log "Warning: JavaScript file not found"] := by
      have h := congrArg Prod.fst h3
      simpa [injectAsset] using h.symm
    simp [ht3]
  cases sexn with
  | none =>
    refine ⟨[Event.log ("Running scenario: " ++ sc.name),
        Event.launch, Event.newPage, Event.goto sc.url] ++ (t1 ++ (t2 ++ t3)),
      [Event.close], ?_, hfront, hstr, by simp [evalsOf], hw1, hw2, hw3⟩
    simp [run_scenario_vat, hl, hn, hg, hinj, hst, seqE]
  | some e =>
    refine ⟨[Event.log ("Running scenario: " ++ sc.name),
        Event.launch, Event.newPage, Event.goto sc.url] ++ (t1 ++ (t2 ++ t3)),
      [Event.log ("An error occurred during scenario execution: " ++ e),
       Event.close], ?_, hfront, hstr, by simp [evalsOf], hw1, hw2, hw3⟩
    simp [run_scenario_vat, hl, hn, hg, hinj, hst, seqE]

/-- Claim C4 is false as stated: the claim also covers `src/main.py`, whose
`inject_javascript_files` evaluates whatever the glob returned, in glob order
— here the audio-input hook lands before the audio-output hook — and a
missing asset is simply absent from the glob result, so no warning is emitted
(empty glob, empty trace); this entry point has no scenario-specific script
at all. -/
theorem c4_counterexample :
    inject_javascript_files envGlobSwapped =
      [Event.inject "audio_input_hooks.js",
       Event.log ("Injected: " ++ "audio_input_hooks.js"),
       Event.inject "audio_output_hooks.js",
       Event.log ("Injected: " ++ "audio_output_hooks.js")] ∧
    inject_javascript_files envOk = [] := by decide

/-- Claim C4 (amended): in the package entry point the instrumentation assets
are evaluated in the fixed order audio-output hook, audio-input hook,
scenario script, a missing asset yields its warning while the remaining
assets are still injected in that relative order, and everything happens
before the first scripted step.  In the script entry point injection also
completes before the first step, but the injected files are exactly whatever
the glob returned, in glob order, with no missing-asset warning and no
scenario-specific script. -/
theorem c4_amended_injection_order :
    (∀ (env : VatEnv) (sc : ScenarioV),
      env.launchFails = false → env.newPageFails = false → env.gotoFails = false →
      (∀ c, env.evaluateFails c = false) →
      ∃ front tail,
        (run_scenario_vat env sc).1 = front ++ (run_steps_vat sc.steps).1 ++ tail ∧
        evalsOf front = env.audioOutputHook.toList ++ env.audioInputHook.toList
            ++ env.scenarioJs.toList ∧
        evalsOf (run_steps_vat sc.steps).1 = [] ∧
        evalsOf tail = [] ∧
        (env.audioOutputHook = none →
          Event.log "Warning: Audio output hooks not found" ∈ front) ∧
        (env.audioInputHook = none →
          Event.log "Warning: Audio input hooks not found" ∈ front) ∧
        (env.scenarioJs = none →
          Event.log "Warning: JavaScript file not found" ∈ front)) ∧
    (∀ (env : Env) (url : String) (steps : List Step),
      env.launchFails = false → env.newPageFails = false → env.gotoFails = false →
      ∃ tail, run_scenario_main env url steps =
        [Event.launch, Event.newPage, Event.goto url]
          ++ inject_javascript_files env ++ (run_steps_main env 1 steps).1 ++ tail) ∧
    (∀ env : Env, (∀ f, env.addScriptTagFails f = false) →
      injectsOf (inject_javascript_files env) = env.jsFiles) := by
  refine ⟨vat_injection_fixed_order, ?_, ?_⟩
  · intro env url steps hl hn hg
    rcases hrs : run_steps_main env 1 steps with ⟨str, sexn⟩
    cases sexn with
    | none =>
      exact ⟨[Event.sleep 5000, Event.close],
        by simp [run_scenario_main, hl, hn, hg, hrs, seqE]⟩
    | some e =>
      exact ⟨[Event.log ("Error running scenario: " ++ e)],
        by simp [run_scenario_main, hl, hn, hg, hrs, seqE]⟩
  · intro env hf
    unfold inject_javascript_files
    generalize env.jsFiles = files
    induction files with
    | nil => simp [injectsOf]
    | cons f fs ih =>
      simp [List.flatMap_cons, injectsOf_append, injectsOf_injectOneFile env f (hf f), ih]

/-- Witness for the amended C4: the package entry point at an environment
where the audio-input hook is missing; the script entry point at a healthy
environment, and at the swapped-glob environment for the glob-order part. -/
theorem c4_amended_injection_order_witness :
    (∃ front tail,
      (run_scenario_vat vatOk scEmpty2).1
        = front ++ (run_steps_vat scEmpty2.steps).1 ++ tail ∧
      evalsOf front = vatOk.audioOutputHook.toList ++ vatOk.audioInputHook.toList
          ++ vatOk.scenarioJs.toList ∧
      evalsOf (run_steps_vat scEmpty2.steps).1 = [] ∧
      evalsOf tail = [] ∧
      (vatOk.audioOutputHook = none →
        Event.log "Warning: Audio output hooks not found" ∈ front) ∧
      (vatOk.audioInputHook = none →
        Event.log "Warning: Audio input hooks not found" ∈ front) ∧
      (vatOk.scenarioJs = none →
        Event.log "Warning: JavaScript file not found" ∈ front)) ∧
    (∃ tail, run_scenario_main envOk "u4" [] =
      [Event.launch, Event.newPage, Event.goto "u4"]
        ++ inject_javascript_files envOk ++ (run_steps_main envOk 1 []).1 ++ tail) ∧
    injectsOf (inject_javascript_files envGlobSwapped) = envGlobSwapped.jsFiles :=
  ⟨c4_amended_injection_order.1 vatOk scEmpty2 rfl rfl rfl (fun _ => rfl),
   c4_amended_injection_order.2.1 envOk "u4" [] rfl rfl rfl,
   c4_amended_injection_order.2.2 envGlobSwapped (fun _ => rfl)⟩

/-- Claim C5 is false as stated: the text is interpolated into the script
with no escaping, so for a text containing a double quote the evaluated
script is not the fixed call with that text as its literal argument — the
synthesis entry point does not receive the text unmodified (the script is a
syntax error). -/
theorem c5_counterexample :
    ("a\"b" : String) ≠ "" ∧
    Event.evaluate (speakScript "a\"b")
      ∈ (execute_step envOk ⟨some "speak", none, some "a\"b"⟩).1 ∧
    speakInvocationArg (speakScript "a\"b") ≠ some "a\"b" := by
  decide

/-- Claim C5 (amended): for a `speak` step whose nonempty text contains no
double quote, no backslash, and no line terminator (LF or CR — ECMAScript
forbids those unescaped in a double-quoted literal), the handler evaluates
exactly one script — the fixed synthesis call — whose literal argument parses
back to exactly the text of the step, and then suspends for the fixed
10-second duration. -/
theorem c5_amended_speak_literal_when_clean (env : Env) (el : Option String)
    (t : String) (ht : t ≠ "")
    (hclean : ∀ c ∈ t.data, c ≠ '"' ∧ c ≠ '\\' ∧ c ≠ '\n' ∧ c ≠ '\r')
    (he : env.evaluateFails (speakScript t) = false) :
    execute_step_core env ⟨some "speak", el, some t⟩ =
      ([.log ("Speaking: " ++ t), .evaluate (speakScript t), .sleep 10000], none) ∧
    speakInvocationArg (speakScript t) = some t :=
  ⟨by simp [execute_step_core, ht, he], speakInvocationArg_clean t hclean⟩

/-- Witness for the amended C5 at the concrete text `hello`. -/
theorem c5_amended_speak_literal_when_clean_witness :
    execute_step_core envOk ⟨some "speak", none, some "hello"⟩ =
      ([.log ("Speaking: " ++ "hello"), .evaluate (speakScript "hello"),
        .sleep 10000], none) ∧
    speakInvocationArg (speakScript "hello") = some "hello" :=
  c5_amended_speak_literal_when_clean envOk none "hello" (by decide) (by decide) rfl

end VoiceAgentTester
